import Mathlib

/-!
Shallow embedding of `src/server.js` (job-application intake service):
multer file intake (extension-preserving generated storage keys, MIME
filter, size limit), the SQLite-backed applicant store, and the Express
route handlers `POST /apply`, `GET /applicants`, `GET /resume/:id`.
External failure points (database insert, SMTP send) are passed in as
explicit outcome flags; time and randomness are explicit parameters.
-/

namespace Server

/-! ## Path extension handling (model of Node's `path.extname`)

`path.extname` takes the basename (the part after the last `/`) and
returns its suffix from the last `.` inclusive; a name with no dot, or
whose only dot is its leading character, has extension `""`. -/

/-- Characters of the basename: the part of the path after the last slash. -/
def basenameChars (cs : List Char) : List Char :=
  (cs.reverse.takeWhile (fun c => c != '/')).reverse

/-- Extension of a basename: its suffix from the last dot inclusive;
empty if there is no dot or the dot is the leading character. -/
def extOfBase (b : List Char) : List Char :=
  let pre := b.reverse.takeWhile (fun c => c != '.')
  if pre.length = b.length then []
  else if pre.length + 1 = b.length then []
  else '.' :: pre.reverse

/-- Extension of a path, as characters. -/
def extnameChars (cs : List Char) : List Char :=
  extOfBase (basenameChars cs)

/-- Model of Node's `path.extname`. -/
def extname (s : String) : String :=
  String.mk (extnameChars s.data)

/-! ## File intake (multer configuration from `server.js` lines 21-42) -/

/-- The generated storage key (`multer.diskStorage` filename callback):
`Date.now()` timestamp, a hyphen, the rounded random component, then the
original filename's extension. -/
def genFilename (now rand : Nat) (originalname : String) : String :=
  toString now ++ "-" ++ toString rand ++ extname originalname

/-- The MIME allow-list of `upload.fileFilter`. -/
def allowedMimes : List String :=
  ["application/pdf",
   "application/msword",
   "application/vnd.openxmlformats-officedocument.wordprocessingml.document"]

/-- `upload.fileFilter`: accept exactly the allow-listed MIME types. -/
def fileFilter (mimetype : String) : Bool :=
  allowedMimes.contains mimetype

/-- `limits.fileSize`: 10 * 1024 * 1024 bytes (10 MiB). -/
def fileSizeLimit : Nat := 10 * 1024 * 1024

/-- The rejection message produced by `upload.fileFilter`. -/
def mimeErrorMsg : String := "Only PDF / DOC / DOCX files are allowed"

/-- The message of multer's `LIMIT_FILE_SIZE` error. -/
def sizeErrorMsg : String := "File too large"

/-- An uploaded file as multer sees it: declared name, MIME type, size. -/
structure UploadedFile where
  originalname : String
  mimetype : String
  size : Nat
deriving Repr, DecidableEq

/-- Outcome of the `upload.single` middleware for one request. -/
inductive UploadOutcome where
  | noFile
  | stored (key : String)
  | rejected (msg : String)
deriving Repr, DecidableEq

/-- The `upload.single("resume")` middleware: no file passes through;
a file is first screened by `fileFilter` (at the part header, before any
bytes are written), then by the size limit while streaming; an accepted
file is stored under the generated key. A rejected file leaves no
artifact behind. -/
def runUpload (file : Option UploadedFile) (now rand : Nat) : UploadOutcome :=
  match file with
  | none => .noFile
  | some f =>
    if fileFilter f.mimetype then
      if f.size ≤ fileSizeLimit then .stored (genFilename now rand f.originalname)
      else .rejected sizeErrorMsg
    else .rejected mimeErrorMsg

/-! ## Data model (the `applicants` table, `server.js` lines 57-69) -/

/-- One row of the `applicants` table. `id` comes from
`INTEGER PRIMARY KEY AUTOINCREMENT`, `createdAt` from
`DEFAULT CURRENT_TIMESTAMP` (modelled as a numeric timestamp). -/
structure ApplicantRecord where
  id : Nat
  firstName : Option String
  lastName : Option String
  email : Option String
  phone : Option String
  position : Option String
  coverLetter : Option String
  resumePath : Option String
  createdAt : Nat
deriving Repr, DecidableEq

/-- The applicant store: rows plus the AUTOINCREMENT counter (SQLite's
AUTOINCREMENT never reuses an id). Rows are kept newest-first. -/
structure DB where
  rows : List ApplicantRecord
  nextId : Nat
deriving Repr, DecidableEq

/-- The server's persistent state: the database and the set of artifact
keys present in the uploads directory. -/
structure ServerState where
  db : DB
  artifacts : List String
deriving Repr, DecidableEq

/-- JavaScript's `x || dflt` on an optional string: `null`, `undefined`
and `""` are falsy. -/
def jsOr (s : Option String) (dflt : String) : String :=
  match s with
  | none => dflt
  | some v => if v = "" then dflt else v

/-! ## POST /apply (`server.js` lines 106-164) -/

/-- The multipart form fields of a `POST /apply` request, plus the
optional `resume` file part. -/
structure ApplyRequest where
  firstName : Option String
  lastName : Option String
  email : Option String
  phone : Option String
  position : Option String
  coverLetter : Option String
  file : Option UploadedFile
deriving Repr, DecidableEq

/-- What the caller of `POST /apply` receives.
`success id msg` is `res.json({success:true, message, id})`;
`failure msg` is `res.status(500).json({success:false, message})` from
the handler's catch block; `uploadRejected msg` is the error with which
the multer middleware aborts the request before the handler runs. -/
inductive ApplyResponse where
  | success (id : Nat) (msg : String)
  | failure (msg : String)
  | uploadRejected (msg : String)
deriving Repr, DecidableEq

/-- The success message of `POST /apply`. -/
def applyOkMsg : String := "Application submitted & confirmation email sent!"

/-- The catch-block message of `POST /apply`. -/
def applyErrMsg : String := "Failed to save application"

/-- A JavaScript Error as Express's default error handler inspects it:
the message plus the optional `status`/`statusCode` property. The error
`upload.fileFilter` constructs at line 40 is a plain `new Error(...)`
with no status property, and multer's own `MulterError` (e.g.
LIMIT_FILE_SIZE) also sets none. -/
structure JsError where
  message : String
  status : Option Nat
deriving Repr, DecidableEq

/-- The HTTP status Express's default (final) error handler answers
with: the error's own status when it carries one, 500 otherwise.
`server.js` registers no error-handling middleware, so every error a
middleware passes to `next` lands here. -/
def expressDefaultStatus (e : JsError) : Nat :=
  match e.status with
  | some s => s
  | none => 500

/-- The HTTP status code of each `POST /apply` outcome: the success
response is `res.json` (200), the handler's catch block answers
`res.status(500)`, and an upload rejection propagates its error — which
carries no status property (see `JsError`) — to Express's default error
handler. -/
def applyStatus : ApplyResponse → Nat
  | .success _ _ => 200
  | .failure _ => 500
  | .uploadRejected msg => expressDefaultStatus ⟨msg, none⟩

/-- Result of one `POST /apply` request: the state afterwards, the
response, and whether `transporter.sendMail` was reached. -/
structure ApplyResult where
  state : ServerState
  response : ApplyResponse
  mailAttempted : Bool
deriving Repr, DecidableEq

/-- The row written by `db.run INSERT`: the request's form fields, the
resolved resume path, the next AUTOINCREMENT id and the insert-time
timestamp. -/
def insertedRec (st : ServerState) (req : ApplyRequest)
    (resumePath : Option String) (now : Nat) : ApplicantRecord :=
  { id := st.db.nextId, firstName := req.firstName, lastName := req.lastName,
    email := req.email, phone := req.phone, position := req.position,
    coverLetter := req.coverLetter, resumePath := resumePath, createdAt := now }

/-- The handler body (after the upload middleware): `db.run INSERT`
(appending a row with the next AUTOINCREMENT id and the insert-time
timestamp), then `await transporter.sendMail`, then the success
response. Both the insert failure and the sendMail failure land in the
same catch block, which answers 500 `{success:false}`; a sendMail
failure happens after the insert, which is not rolled back. -/
def applyCore (st : ServerState) (req : ApplyRequest) (resumePath : Option String)
    (now : Nat) (insertOk mailOk : Bool) : ApplyResult :=
  if insertOk then
    let newRec : ApplicantRecord := insertedRec st req resumePath now
    let db' : DB := { rows := newRec :: st.db.rows, nextId := st.db.nextId + 1 }
    if mailOk then
      ⟨⟨db', st.artifacts⟩, .success st.db.nextId applyOkMsg, true⟩
    else
      ⟨⟨db', st.artifacts⟩, .failure applyErrMsg, true⟩
  else
    ⟨st, .failure applyErrMsg, false⟩

/-- The whole `POST /apply` route: `upload.single("resume")` first (a
rejection there aborts the request, leaving state untouched and never
running the handler), then `applyCore` with
`resumePath = req.file ? req.file.filename : null`. -/
def applyHandler (st : ServerState) (req : ApplyRequest) (now rand : Nat)
    (insertOk mailOk : Bool) : ApplyResult :=
  match runUpload req.file now rand with
  | .rejected msg => ⟨st, .uploadRejected msg, false⟩
  | .noFile => applyCore st req none now insertOk mailOk
  | .stored key =>
      applyCore ⟨st.db, key :: st.artifacts⟩ req (some key) now insertOk mailOk

/-! ## GET /applicants (`server.js` lines 167-182) -/

/-- Insert one record into a list already sorted by `createdAt`
descending, keeping it sorted. -/
def insertDesc (r : ApplicantRecord) : List ApplicantRecord → List ApplicantRecord
  | [] => [r]
  | x :: xs => if x.createdAt ≤ r.createdAt then r :: x :: xs else x :: insertDesc r xs

/-- `SELECT * FROM applicants ORDER BY createdAt DESC`: the rows sorted
by `createdAt`, most recent first. -/
def listAll (db : DB) : List ApplicantRecord :=
  db.rows.foldr insertDesc []

/-- One element of the `GET /applicants` response: the row spread plus
its `resumeUrl` annotation. -/
structure ApplicantView where
  record : ApplicantRecord
  resumeUrl : Option String
deriving Repr, DecidableEq

/-- The `resumeUrl` annotation: `host/uploads/resumePath` when a resume
path is present, `null` otherwise. -/
def annotate (host : String) (r : ApplicantRecord) : ApplicantView :=
  ⟨r, r.resumePath.map (fun p => host ++ "/uploads/" ++ p)⟩

/-- The `GET /applicants` handler: all rows ordered by `createdAt`
descending, each mapped with its `resumeUrl`. -/
def applicantsHandler (db : DB) (host : String) : List ApplicantView :=
  (listAll db).map (annotate host)

/-- The ordering contract of `GET /applicants`: a record never precedes
a more recent one. -/
def createdDesc (a b : ApplicantRecord) : Prop :=
  b.createdAt ≤ a.createdAt

/-! ## GET /resume/:id (`server.js` lines 201-215) -/

/-- `db.get(SELECT * FROM applicants WHERE id = ?)`. -/
def getById (db : DB) (id : Nat) : Option ApplicantRecord :=
  db.rows.find? (fun r => r.id == id)

/-- What `GET /resume/:id` answers: a 404 with a message, or
`res.download(fullPath, suggestedName)`. -/
inductive ResumeResponse where
  | notFound (msg : String)
  | download (fullPath : String) (suggestedName : String)
deriving Repr, DecidableEq

/-- The `GET /resume/:id` handler: 404 "Resume not found" when the row
is absent or has no `resumePath`; 404 "File missing" when
`fs.existsSync` fails on the joined path; otherwise
`res.download(fullPath, (firstName || "resume") + path.extname(fullPath))`.
Artifact existence is membership in the server's artifact set; the
joined path is `uploads/` plus the stored key. -/
def resumeHandler (st : ServerState) (id : Nat) : ResumeResponse :=
  match getById st.db id with
  | none => .notFound "Resume not found"
  | some a =>
    match a.resumePath with
    | none => .notFound "Resume not found"
    | some p =>
      let fullPath := "uploads/" ++ p
      if st.artifacts.contains p then
        .download fullPath (jsOr a.firstName "resume" ++ extname fullPath)
      else
        .notFound "File missing"

/-! ## Concrete fixtures (used by witnesses and counterexamples) -/

/-- The store right after `CREATE TABLE`: no rows, first AUTOINCREMENT
id 1, empty uploads directory. -/
def emptyState : ServerState := ⟨⟨[], 1⟩, []⟩

/-- A valid submission with form fields and no resume file. -/
def reqNoFile : ApplyRequest :=
  ⟨some "Ann", some "Lee", some "ann@example.com", none, some "Developer",
    none, none⟩

/-- A well-formed small PDF upload. -/
def pdfFile : UploadedFile := ⟨"cv.pdf", "application/pdf", 5⟩

/-- A submission carrying `pdfFile`. -/
def reqPdf : ApplyRequest :=
  ⟨some "Ann", some "Lee", some "ann@example.com", none, some "Developer",
    none, some pdfFile⟩

/-- An upload with a disallowed MIME type. -/
def pngFile : UploadedFile := ⟨"cv.png", "image/png", 5⟩

/-- A submission carrying `pngFile`. -/
def reqPng : ApplyRequest :=
  ⟨some "Ann", none, some "ann@example.com", none, some "Developer",
    none, some pngFile⟩

/-- A PDF upload one byte over the 10 MiB ceiling. -/
def bigFile : UploadedFile := ⟨"cv.pdf", "application/pdf", 10 * 1024 * 1024 + 1⟩

/-- A submission carrying `bigFile`. -/
def reqBig : ApplyRequest :=
  ⟨some "Ann", none, some "ann@example.com", none, some "Developer",
    none, some bigFile⟩

/-- Another valid no-resume submission. -/
def reqBo : ApplyRequest :=
  ⟨some "Bo", none, some "bo@example.org", none, some "QA", none, none⟩

/-- A stored applicant whose firstName is the empty string, with a
resume key on disk. -/
def recNoName : ApplicantRecord :=
  ⟨1, some "", none, some "a@example.com", none, some "Dev", none,
    some "17-42.pdf", 100⟩

/-- A stored applicant named Ann with a resume key on disk. -/
def recAnn : ApplicantRecord :=
  ⟨1, some "Ann", some "Lee", some "ann@example.com", none, some "Dev", none,
    some "17-42.pdf", 100⟩

/-- A stored applicant with no resume. -/
def recNoResume : ApplicantRecord :=
  ⟨1, some "Cy", none, some "cy@example.com", none, some "Dev", none,
    none, 100⟩

/-! ## Lemmas: extensions and generated storage keys -/

theorem data_mk (l : List Char) : (String.mk l).data = l := rfl

/-- An extension is empty, or a dot followed by dot-free, slash-free
characters. -/
theorem extnameChars_shape (cs : List Char) :
    extnameChars cs = [] ∨
      ∃ r, extnameChars cs = '.' :: r ∧ ∀ c ∈ r, c ≠ '.' ∧ c ≠ '/' := by
  simp only [extnameChars, extOfBase, basenameChars]
  split
  · exact Or.inl rfl
  split
  · exact Or.inl rfl
  refine Or.inr ⟨_, rfl, fun c hc => ?_⟩
  rw [List.mem_reverse] at hc
  refine ⟨by simpa using List.mem_takeWhile_imp hc, ?_⟩
  have hcb := List.takeWhile_subset _ hc
  rw [List.reverse_reverse] at hcb
  simpa using List.mem_takeWhile_imp hcb

/-- A path with no slash is its own basename. -/
theorem basenameChars_of_noSlash (l : List Char) (h : ∀ c ∈ l, c ≠ '/') :
    basenameChars l = l := by
  unfold basenameChars
  rw [List.takeWhile_eq_self_iff.mpr, List.reverse_reverse]
  intro x hx
  rw [List.mem_reverse] at hx
  simpa using h x hx

/-- Prepending a nonempty, dot-free, slash-free prefix to a well-formed
extension yields a path whose extension is exactly that extension. -/
theorem extnameChars_append (p e : List Char) (hne : p ≠ [])
    (hp : ∀ c ∈ p, c ≠ '.' ∧ c ≠ '/')
    (he : e = [] ∨ ∃ r, e = '.' :: r ∧ ∀ c ∈ r, c ≠ '.' ∧ c ≠ '/') :
    extnameChars (p ++ e) = e := by
  rcases he with rfl | ⟨r, rfl, hr⟩
  · rw [List.append_nil]
    have hb : basenameChars p = p :=
      basenameChars_of_noSlash p (fun c hc => (hp c hc).2)
    have h2 : p.reverse.takeWhile (fun c => c != '.') = p.reverse := by
      rw [List.takeWhile_eq_self_iff]
      intro x hx
      rw [List.mem_reverse] at hx
      simpa using (hp x hx).1
    simp [extnameChars, extOfBase, hb, h2]
  · have hb : basenameChars (p ++ '.' :: r) = p ++ '.' :: r := by
      refine basenameChars_of_noSlash _ (fun c hc => ?_)
      rcases List.mem_append.mp hc with h | h
      · exact (hp c h).2
      · rcases List.mem_cons.mp h with rfl | h
        · decide
        · exact (hr c h).2
    have hrev : (p ++ '.' :: r).reverse = r.reverse ++ '.' :: p.reverse := by
      rw [List.reverse_append, List.reverse_cons, List.append_assoc]
      simp
    have hpre : ((p ++ '.' :: r).reverse).takeWhile (fun c => c != '.')
        = r.reverse := by
      rw [hrev, List.takeWhile_append_of_pos, List.takeWhile_cons_of_neg,
        List.append_nil]
      · decide
      · intro a ha
        rw [List.mem_reverse] at ha
        simpa using (hr a ha).1
    have hplen : 0 < p.length := List.length_pos.mpr hne
    simp only [extnameChars, extOfBase, hb, hpre, List.length_reverse,
      List.length_append, List.length_cons]
    rw [if_neg (by omega), if_neg (by omega), List.reverse_reverse]

/-- Decimal digit characters are never a dot or a slash. -/
theorem digitChar_ne_dot_slash (n : Nat) (hn : n < 10) :
    Nat.digitChar n ≠ '.' ∧ Nat.digitChar n ≠ '/' := by
  interval_cases n <;> exact ⟨by decide, by decide⟩

/-- Characters produced by `Nat.toDigitsCore` in base 10 are decimal
digit characters or come from the accumulator. -/
theorem toDigitsCore_chars (P : Char → Prop)
    (hP : ∀ m, m < 10 → P (Nat.digitChar m)) :
    ∀ (fuel n : Nat) (ds : List Char), (∀ c ∈ ds, P c) →
      ∀ c ∈ Nat.toDigitsCore 10 fuel n ds, P c := by
  intro fuel
  induction fuel with
  | zero => exact fun n ds hds c hc => hds c hc
  | succ fuel ih =>
    intro n ds hds c hc
    simp only [Nat.toDigitsCore] at hc
    by_cases h : n / 10 = 0
    · rw [if_pos h] at hc
      rcases List.mem_cons.mp hc with rfl | hmem
      · exact hP _ (Nat.mod_lt _ (by omega))
      · exact hds c hmem
    · rw [if_neg h] at hc
      refine ih (n / 10) _ (fun x hx => ?_) c hc
      rcases List.mem_cons.mp hx with rfl | hmem
      · exact hP _ (Nat.mod_lt _ (by omega))
      · exact hds x hmem

/-- The decimal rendering of a natural number contains no dot and no
slash. -/
theorem toString_nat_chars (n : Nat) :
    ∀ c ∈ (toString n).data, c ≠ '.' ∧ c ≠ '/' := by
  intro c hc
  have hdata : (toString n).data = Nat.toDigitsCore 10 (n + 1) n [] := rfl
  rw [hdata] at hc
  exact toDigitsCore_chars (fun c => c ≠ '.' ∧ c ≠ '/')
    (fun m hm => digitChar_ne_dot_slash m hm) (n + 1) n [] (by simp) c hc

/-- The generated storage key carries exactly the original filename's
extension. -/
theorem extname_genFilename (now rand : Nat) (o : String) :
    extname (genFilename now rand o) = extname o := by
  have hdata : (genFilename now rand o).data
      = ((toString now).data ++ '-' :: (toString rand).data)
          ++ extnameChars o.data := by
    simp only [genFilename, extname, String.data_append, data_mk]
    simp [List.append_assoc]
  show String.mk (extnameChars (genFilename now rand o).data) = _
  rw [hdata, extnameChars_append]
  · rfl
  · simp
  · intro c hc
    rcases List.mem_append.mp hc with h | h
    · exact toString_nat_chars now c h
    · rcases List.mem_cons.mp h with rfl | h
      · decide
      · exact toString_nat_chars rand c h
  · exact extnameChars_shape o.data

/-- Joining the uploads directory onto a slash-free stored key does not
change the computed extension. -/
theorem extname_uploads (p : String) (h : ∀ c ∈ p.data, c ≠ '/') :
    extname ("uploads/" ++ p) = extname p := by
  have hsplit : ("uploads/" : String).data = "uploads".data ++ ['/'] := by decide
  have hrev : (("uploads/" ++ p).data).reverse
      = p.data.reverse ++ '/' :: "uploads".data.reverse := by
    rw [String.data_append, hsplit]
    simp [List.reverse_append]
  have hpos : ∀ a ∈ p.data.reverse, (fun c => c != '/') a := by
    intro a ha
    rw [List.mem_reverse] at ha
    simpa using h a ha
  have hball : (("uploads/" ++ p).data).reverse.takeWhile (fun c => c != '/')
      = p.data.reverse := by
    rw [hrev, List.takeWhile_append_of_pos hpos,
      List.takeWhile_cons_of_neg (by decide), List.append_nil]
  have hb : basenameChars (("uploads/" ++ p).data) = p.data := by
    rw [basenameChars, hball, List.reverse_reverse]
  have hbp : basenameChars p.data = p.data := basenameChars_of_noSlash _ h
  show String.mk (extOfBase (basenameChars _)) = String.mk (extOfBase (basenameChars _))
  rw [hb, hbp]

/-! ## Lemmas: ORDER BY createdAt DESC -/

theorem insertDesc_perm (r : ApplicantRecord) (l : List ApplicantRecord) :
    List.Perm (insertDesc r l) (r :: l) := by
  induction l with
  | nil => rfl
  | cons x xs ih =>
    by_cases hle : x.createdAt ≤ r.createdAt
    · simp [insertDesc, hle]
    · simp only [insertDesc, if_neg hle]
      exact (List.Perm.cons x ih).trans (List.Perm.swap r x xs)

theorem insertDesc_pairwise (r : ApplicantRecord) (l : List ApplicantRecord)
    (h : l.Pairwise createdDesc) : (insertDesc r l).Pairwise createdDesc := by
  induction l with
  | nil => simp [insertDesc, createdDesc]
  | cons x xs ih =>
    rw [List.pairwise_cons] at h
    obtain ⟨hx, hxs⟩ := h
    by_cases hle : x.createdAt ≤ r.createdAt
    · simp only [insertDesc, if_pos hle]
      rw [List.pairwise_cons]
      refine ⟨fun y hy => ?_, ?_⟩
      · rcases List.mem_cons.mp hy with rfl | hy
        · exact hle
        · exact le_trans (hx y hy) hle
      · rw [List.pairwise_cons]
        exact ⟨hx, hxs⟩
    · simp only [insertDesc, if_neg hle]
      rw [List.pairwise_cons]
      refine ⟨fun y hy => ?_, ih hxs⟩
      have hmem := (insertDesc_perm r xs).mem_iff.mp hy
      rcases List.mem_cons.mp hmem with rfl | hy'
      · exact le_of_not_le hle
      · exact hx y hy'

theorem listAll_perm (db : DB) : List.Perm (listAll db) db.rows := by
  unfold listAll
  induction db.rows with
  | nil => rfl
  | cons x xs ih =>
    exact ((insertDesc_perm x _).trans (List.Perm.cons x ih))

theorem listAll_pairwise (db : DB) : (listAll db).Pairwise createdDesc := by
  unfold listAll
  induction db.rows with
  | nil => exact List.Pairwise.nil
  | cons x xs ih => exact insertDesc_pairwise x _ ih

/-! ## Claim theorems -/

/-- C1 counterexample: on the empty store, a valid no-file submission
whose confirmation-email send fails receives the catch-block 500
`{success:false, "Failed to save application"}` response — not
`success:true` with the new id — even though the row was inserted (the
store holds one record afterwards). -/
theorem apply_mail_failure_success_cex :
    (applyHandler emptyState reqNoFile 17 42 true false).response
        = .failure applyErrMsg ∧
      (applyHandler emptyState reqNoFile 17 42 true false).state.db.rows.length
        = 1 := by
  exact ⟨rfl, rfl⟩

/-- C1 amended: after the applicant record is successfully inserted, a
failure of the confirmation-email send IS fatal to the request: the
caller receives the 500 `{success:false}` response (never a
`success:true` one), while the record is already durably stored — the
store grows by exactly one row — and the failure is surfaced only in the
server log. -/
theorem apply_mail_failure_fails_request (st : ServerState) (req : ApplyRequest)
    (now rand : Nat)
    (hup : ∀ f, req.file = some f →
      fileFilter f.mimetype = true ∧ f.size ≤ fileSizeLimit) :
    (applyHandler st req now rand true false).response = .failure applyErrMsg ∧
      (applyHandler st req now rand true false).state.db.rows.length
        = st.db.rows.length + 1 := by
  cases hfile : req.file with
  | none => exact ⟨by simp [applyHandler, runUpload, applyCore, hfile],
      by simp [applyHandler, runUpload, applyCore, hfile]⟩
  | some f =>
    obtain ⟨hm, hs⟩ := hup f hfile
    exact ⟨by simp [applyHandler, runUpload, applyCore, hfile, hm, hs],
      by simp [applyHandler, runUpload, applyCore, hfile, hm, hs]⟩

/-- C1 amended witness at a concrete input: empty store, valid no-file
submission, failing mail transport. -/
theorem apply_mail_failure_fails_request_witness :
    (applyHandler emptyState reqBo 17 42 true false).response
        = .failure applyErrMsg ∧
      (applyHandler emptyState reqBo 17 42 true false).state.db.rows.length
        = emptyState.db.rows.length + 1 :=
  apply_mail_failure_fails_request emptyState reqBo 17 42
    (fun f hf => by simp [reqBo] at hf)

/-- C2: when the database insert in POST /apply succeeds and the
subsequent sendMail call throws, the handler responds 500
`{success:false, "Failed to save application"}` while the newly inserted
record remains in the store: the new row (carrying the fresh id and the
insert-time timestamp) is prepended and never rolled back, and sendMail
was indeed reached. -/
theorem apply_mail_failure_row_persists (st : ServerState) (req : ApplyRequest)
    (now rand : Nat)
    (hup : ∀ f, req.file = some f →
      fileFilter f.mimetype = true ∧ f.size ≤ fileSizeLimit) :
    (applyHandler st req now rand true false).response = .failure applyErrMsg ∧
      (applyHandler st req now rand true false).mailAttempted = true ∧
      ∃ r, (applyHandler st req now rand true false).state.db.rows
          = r :: st.db.rows ∧ r.id = st.db.nextId ∧ r.createdAt = now := by
  cases hfile : req.file with
  | none =>
    refine ⟨?_, ?_, ⟨insertedRec st req none now, ?_, rfl, rfl⟩⟩ <;>
      simp [applyHandler, runUpload, applyCore, hfile]
  | some f =>
    obtain ⟨hm, hs⟩ := hup f hfile
    refine ⟨?_, ?_,
        ⟨insertedRec ⟨st.db, genFilename now rand f.originalname :: st.artifacts⟩
            req (some (genFilename now rand f.originalname)) now,
          ?_, rfl, rfl⟩⟩ <;>
      simp [applyHandler, runUpload, applyCore, hfile, hm, hs]

/-- C2 witness at a concrete input: empty store, PDF submission, failing
mail transport. -/
theorem apply_mail_failure_row_persists_witness :
    (applyHandler emptyState reqPdf 17 42 true false).response
        = .failure applyErrMsg ∧
      (applyHandler emptyState reqPdf 17 42 true false).mailAttempted = true ∧
      ∃ r, (applyHandler emptyState reqPdf 17 42 true false).state.db.rows
          = r :: emptyState.db.rows
        ∧ r.id = emptyState.db.nextId ∧ r.createdAt = 17 :=
  apply_mail_failure_row_persists emptyState reqPdf 17 42
    (fun f hf => by
      simp only [reqPdf] at hf
      cases hf
      exact ⟨by decide, by decide⟩)

/-- C3 counterexample: a PNG upload on the empty store is rejected by
the middleware with no record and no artifact, but `server.js` registers
no error-handling middleware, so the fileFilter's plain Error falls
through to Express's default handler and the caller receives HTTP 500 —
a server error, not the client error the claim promises. -/
theorem apply_bad_mime_client_error_cex :
    applyHandler emptyState reqPng 17 42 true true
        = ⟨emptyState, .uploadRejected mimeErrorMsg, false⟩ ∧
      applyStatus (applyHandler emptyState reqPng 17 42 true true).response
        = 500 ∧
      ¬(400 ≤ applyStatus
            (applyHandler emptyState reqPng 17 42 true true).response ∧
        applyStatus (applyHandler emptyState reqPng 17 42 true true).response
          < 500) := by
  exact ⟨rfl, rfl, by decide⟩

/-- C3 amended: a submission whose file has a MIME type outside
{application/pdf, application/msword, application/vnd.openxmlformats-
officedocument.wordprocessingml.document} is rejected by the upload
middleware before any persistence attempt — the server state is
unchanged (no applicant record, no stored artifact) and sendMail is
never reached — and the request aborts with the fileFilter's validation
error; since no error-handling middleware is installed, that status-free
error reaches Express's default handler and the caller receives
HTTP 500, a server error rather than a 4xx client error. -/
theorem apply_bad_mime_rejected (st : ServerState) (req : ApplyRequest)
    (now rand : Nat) (insertOk mailOk : Bool) (f : UploadedFile)
    (hf : req.file = some f) (hm : fileFilter f.mimetype = false) :
    applyHandler st req now rand insertOk mailOk
        = ⟨st, .uploadRejected mimeErrorMsg, false⟩ ∧
      applyStatus (applyHandler st req now rand insertOk mailOk).response
        = 500 := by
  have h : applyHandler st req now rand insertOk mailOk
      = ⟨st, .uploadRejected mimeErrorMsg, false⟩ := by
    simp [applyHandler, runUpload, hf, hm]
  exact ⟨h, by rw [h]; rfl⟩

/-- C3 amended witness at a concrete input: a PNG upload on the empty
store. -/
theorem apply_bad_mime_rejected_witness :
    applyHandler emptyState reqPng 18 43 true true
        = ⟨emptyState, .uploadRejected mimeErrorMsg, false⟩ ∧
      applyStatus (applyHandler emptyState reqPng 18 43 true true).response
        = 500 :=
  apply_bad_mime_rejected emptyState reqPng 18 43 true true pngFile rfl
    (by decide)

/-- C4: a submission whose file exceeds the 10 MiB `limits.fileSize`
ceiling is rejected by the upload middleware with the server state
unchanged (no applicant record, no stored artifact) and sendMail never
reached; when the MIME type is allowed (so the filter does not fire
first) the rejection is specifically multer's LIMIT_FILE_SIZE
payload-too-large error. -/
theorem apply_oversize_rejected (st : ServerState) (req : ApplyRequest)
    (now rand : Nat) (insertOk mailOk : Bool) (f : UploadedFile)
    (hf : req.file = some f) (hs : fileSizeLimit < f.size) :
    (∃ msg, applyHandler st req now rand insertOk mailOk
        = ⟨st, .uploadRejected msg, false⟩) ∧
      (fileFilter f.mimetype = true →
        applyHandler st req now rand insertOk mailOk
          = ⟨st, .uploadRejected sizeErrorMsg, false⟩) := by
  have hnot : ¬ f.size ≤ fileSizeLimit := not_le.mpr hs
  by_cases hm : fileFilter f.mimetype
  · exact ⟨⟨sizeErrorMsg, by simp [applyHandler, runUpload, hf, hm, hnot]⟩,
      fun _ => by simp [applyHandler, runUpload, hf, hm, hnot]⟩
  · exact ⟨⟨mimeErrorMsg, by simp [applyHandler, runUpload, hf, hm]⟩,
      fun hmm => absurd hmm hm⟩

/-- C4 witness at a concrete input: a PDF one byte over the ceiling on
the empty store. -/
theorem apply_oversize_rejected_witness :
    (∃ msg, applyHandler emptyState reqBig 17 42 true true
        = ⟨emptyState, .uploadRejected msg, false⟩) ∧
      (fileFilter bigFile.mimetype = true →
        applyHandler emptyState reqBig 17 42 true true
          = ⟨emptyState, .uploadRejected sizeErrorMsg, false⟩) :=
  apply_oversize_rejected emptyState reqBig 17 42 true true bigFile rfl
    (by decide)

/-- C5: when the insert fails after an accepted upload, the submission
terminates in failure: the database is unchanged (no applicant record),
the caller receives the 500 `{success:false}` server error, sendMail is
never attempted, and the artifact written by the middleware is left in
place in the uploads directory (orphaned, not cleaned up). -/
theorem apply_insert_failure_orphans_artifact (st : ServerState)
    (req : ApplyRequest) (now rand : Nat) (mailOk : Bool) (f : UploadedFile)
    (hf : req.file = some f) (hm : fileFilter f.mimetype = true)
    (hs : f.size ≤ fileSizeLimit) :
    applyHandler st req now rand false mailOk
      = ⟨⟨st.db, genFilename now rand f.originalname :: st.artifacts⟩,
          .failure applyErrMsg, false⟩ := by
  simp [applyHandler, runUpload, applyCore, hf, hm, hs]

/-- C5 witness at a concrete input: a valid PDF submission on the empty
store with a failing insert. -/
theorem apply_insert_failure_orphans_artifact_witness :
    applyHandler emptyState reqPdf 17 42 false true
      = ⟨⟨emptyState.db, genFilename 17 42 "cv.pdf" :: emptyState.artifacts⟩,
          .failure applyErrMsg, false⟩ :=
  apply_insert_failure_orphans_artifact emptyState reqPdf 17 42 true pdfFile
    rfl (by decide) (by decide)

/-- C6: GET /applicants returns all records of the store (the response,
projected back to rows, is a permutation of the stored rows) ordered by
createdAt in non-increasing order (each element's createdAt is at least
its successor's). -/
theorem applicants_sorted_complete (db : DB) (host : String) :
    (applicantsHandler db host).Pairwise
        (fun a b => b.record.createdAt ≤ a.record.createdAt) ∧
      List.Perm ((applicantsHandler db host).map ApplicantView.record)
        db.rows := by
  constructor
  · exact List.Pairwise.map (annotate host) (fun a b h => h)
      (listAll_pairwise db)
  · have hmap : (applicantsHandler db host).map ApplicantView.record
        = listAll db := by
      simp only [applicantsHandler, List.map_map]
      exact List.map_id'' (fun r => rfl) (listAll db)
    rw [hmap]
    exact listAll_perm db

/-- C7 counterexample: a valid no-resume submission on the empty store
whose confirmation email fails: exactly one record with null resumePath
is created, yet the caller receives the 500 failure response — a
`failure` constructor, not the `success` one — so no fresh id is
returned to the caller. -/
theorem apply_no_resume_id_cex :
    (applyHandler emptyState reqBo 99 7 true false).state.db.rows.map
        ApplicantRecord.resumePath = [none] ∧
      (applyHandler emptyState reqBo 99 7 true false).response
        = .failure applyErrMsg := by
  exact ⟨rfl, rfl⟩

/-- C7 amended: a valid submission without a resume file whose insert
succeeds creates exactly one new applicant record, prepended to the
store, with resumePath null and the fresh AUTOINCREMENT id (strictly
above every existing id, hence previously unused; the counter then
advances); the fresh id is returned to the caller when the confirmation
email also succeeds (otherwise the request fails with 500 despite the
record being persisted). -/
theorem apply_no_resume_creates_record (st : ServerState) (req : ApplyRequest)
    (now rand : Nat) (mailOk : Bool) (hf : req.file = none)
    (hfresh : ∀ r ∈ st.db.rows, r.id < st.db.nextId) :
    ∃ newRec, (applyHandler st req now rand true mailOk).state.db.rows
        = newRec :: st.db.rows
      ∧ newRec.resumePath = none
      ∧ newRec.id = st.db.nextId
      ∧ (∀ r ∈ st.db.rows, r.id ≠ newRec.id)
      ∧ (applyHandler st req now rand true mailOk).state.db.nextId
          = st.db.nextId + 1
      ∧ (mailOk = true →
          (applyHandler st req now rand true mailOk).response
            = .success newRec.id applyOkMsg) := by
  refine ⟨insertedRec st req none now, ?_, rfl, rfl, ?_, ?_, ?_⟩
  · cases mailOk <;> simp [applyHandler, runUpload, applyCore, hf]
  · exact fun r hr => Nat.ne_of_lt (hfresh r hr)
  · cases mailOk <;> simp [applyHandler, runUpload, applyCore, hf]
  · intro hmail
    subst hmail
    simp [applyHandler, runUpload, applyCore, insertedRec, hf]

/-- C7 amended witness at a concrete input: `reqNoFile` on the empty
store with a working mail transport. -/
theorem apply_no_resume_creates_record_witness :
    ∃ newRec, (applyHandler emptyState reqNoFile 17 42 true true).state.db.rows
        = newRec :: emptyState.db.rows
      ∧ newRec.resumePath = none
      ∧ newRec.id = emptyState.db.nextId
      ∧ (∀ r ∈ emptyState.db.rows, r.id ≠ newRec.id)
      ∧ (applyHandler emptyState reqNoFile 17 42 true true).state.db.nextId
          = emptyState.db.nextId + 1
      ∧ (true = true →
          (applyHandler emptyState reqNoFile 17 42 true true).response
            = .success newRec.id applyOkMsg) :=
  apply_no_resume_creates_record emptyState reqNoFile 17 42 true rfl
    (by simp [emptyState])

/-- C8: GET /resume/:id answers 404 — never a server error — in each of
the three absence cases (no record with that id; a record without a
resume reference; a referenced artifact no longer on storage), and when
record, reference and artifact are all present it streams the file back
via res.download. -/
theorem resume_404_cases_and_download (st : ServerState) (id : Nat) :
    (getById st.db id = none →
        resumeHandler st id = .notFound "Resume not found") ∧
      (∀ a, getById st.db id = some a → a.resumePath = none →
        resumeHandler st id = .notFound "Resume not found") ∧
      (∀ a p, getById st.db id = some a → a.resumePath = some p →
        p ∉ st.artifacts →
        resumeHandler st id = .notFound "File missing") ∧
      (∀ a p, getById st.db id = some a → a.resumePath = some p →
        p ∈ st.artifacts →
        resumeHandler st id
          = .download ("uploads/" ++ p)
              (jsOr a.firstName "resume" ++ extname ("uploads/" ++ p))) := by
  refine ⟨fun h => ?_, fun a h hp => ?_, fun a p h hp hc => ?_,
    fun a p h hp hc => ?_⟩
  · simp [resumeHandler, h]
  · simp [resumeHandler, h, hp]
  · simp [resumeHandler, h, hp, hc]
  · simp [resumeHandler, h, hp, hc]

/-- C8 witness: the four cases at concrete stores — a missing id, a
record without resume, a record whose artifact was deleted, and a full
download. -/
theorem resume_404_cases_and_download_witness :
    resumeHandler emptyState 3 = .notFound "Resume not found" ∧
      resumeHandler ⟨⟨[recNoResume], 2⟩, []⟩ 1
        = .notFound "Resume not found" ∧
      resumeHandler ⟨⟨[recAnn], 2⟩, []⟩ 1 = .notFound "File missing" ∧
      resumeHandler ⟨⟨[recAnn], 2⟩, ["17-42.pdf"]⟩ 1
        = .download ("uploads/" ++ "17-42.pdf")
            (jsOr recAnn.firstName "resume"
              ++ extname ("uploads/" ++ "17-42.pdf")) :=
  ⟨(resume_404_cases_and_download emptyState 3).1 rfl,
    (resume_404_cases_and_download ⟨⟨[recNoResume], 2⟩, []⟩ 1).2.1
      recNoResume rfl rfl,
    (resume_404_cases_and_download ⟨⟨[recAnn], 2⟩, []⟩ 1).2.2.1
      recAnn "17-42.pdf" rfl rfl (by decide),
    (resume_404_cases_and_download ⟨⟨[recAnn], 2⟩, ["17-42.pdf"]⟩ 1).2.2.2
      recAnn "17-42.pdf" rfl rfl (by decide)⟩

/-- C9 counterexample: for a successful download by an applicant whose
stored firstName is the empty string, the suggested filename is the
fallback "resume.pdf", not the first name concatenated with the
artifact's extension (which would be ".pdf"). -/
theorem resume_filename_fallback_cex :
    resumeHandler ⟨⟨[recNoName], 2⟩, ["17-42.pdf"]⟩ 1
        = .download "uploads/17-42.pdf" "resume.pdf" ∧
      "resume.pdf" ≠ "" ++ extname "uploads/17-42.pdf" := by
  exact ⟨by decide, by decide⟩

/-- C9 amended: for a successful resume download the suggested filename
is the applicant's first name — or the literal "resume" when the first
name is null or empty — concatenated with the stored artifact's
extension; and for a slash-free stored key that extension equals the
key's own extension (which `genFilename` took from the original
upload). -/
theorem resume_filename_firstName_ext (st : ServerState) (id : Nat)
    (a : ApplicantRecord) (p fn : String)
    (ha : getById st.db id = some a) (hp : a.resumePath = some p)
    (hart : p ∈ st.artifacts)
    (hfn : a.firstName = some fn) (hne : fn ≠ "") :
    resumeHandler st id
        = .download ("uploads/" ++ p) (fn ++ extname ("uploads/" ++ p)) ∧
      ((∀ c ∈ p.data, c ≠ '/') → extname ("uploads/" ++ p) = extname p) := by
  constructor
  · simp [resumeHandler, ha, hp, hart, jsOr, hfn, hne]
  · exact extname_uploads p

/-- C9 amended witness at a concrete input: applicant Ann with stored
key `17-42.pdf`. -/
theorem resume_filename_firstName_ext_witness :
    resumeHandler ⟨⟨[recAnn], 2⟩, ["17-42.pdf"]⟩ 1
        = .download ("uploads/" ++ "17-42.pdf")
            ("Ann" ++ extname ("uploads/" ++ "17-42.pdf")) ∧
      extname ("uploads/" ++ "17-42.pdf") = extname "17-42.pdf" :=
  ⟨(resume_filename_firstName_ext ⟨⟨[recAnn], 2⟩, ["17-42.pdf"]⟩ 1 recAnn
      "17-42.pdf" "Ann" rfl rfl (by decide) rfl (by decide)).1,
    (resume_filename_firstName_ext ⟨⟨[recAnn], 2⟩, ["17-42.pdf"]⟩ 1 recAnn
      "17-42.pdf" "Ann" rfl rfl (by decide) rfl (by decide)).2 (by decide)⟩

/-- C10: the generated storage key is the timestamp, a hyphen and the
random component followed by the original filename's extension; it
preserves that extension exactly, and it depends on the original
filename only through the extension: two originals with equal extensions
yield the same key. -/
theorem genFilename_key (now rand : Nat) (o o₂ : String)
    (h : extname o = extname o₂) :
    genFilename now rand o
        = toString now ++ "-" ++ toString rand ++ extname o ∧
      extname (genFilename now rand o) = extname o ∧
      genFilename now rand o = genFilename now rand o₂ := by
  refine ⟨rfl, extname_genFilename now rand o, ?_⟩
  simp [genFilename, h]

/-- C10 witness at concrete inputs: two different PDF names share a
key. -/
theorem genFilename_key_witness :
    genFilename 17 42 "cv.pdf"
        = toString 17 ++ "-" ++ toString 42 ++ extname "cv.pdf" ∧
      extname (genFilename 17 42 "cv.pdf") = extname "cv.pdf" ∧
      genFilename 17 42 "cv.pdf" = genFilename 17 42 "other.pdf" :=
  genFilename_key 17 42 "cv.pdf" "other.pdf" (by decide)

end Server
